import Mathlib

/-!
Shallow embedding of the device-independent graphics layer in
src/libs/graphics/jswrap_graphics.c (Espruino).

Conventions of the embedding:
* machine integers are modelled as Nat / Int with explicit reductions where the
  C code can overflow (`% 2 ^ 32` for `unsigned int`, a 16-bit two's-complement
  wrap for `(short)` casts);
* the backend pixel-write primitive `graphicsSetPixel` is modelled by emitting a
  `PixelWrite` event; the list of events is the observable drawing behaviour;
* `JsVar` string buffers are modelled as `List Nat` of byte values; reading a
  string iterator past the end yields 0, which is the contract of
  `jsvStringIteratorGetChar` (the iterator itself is outside this source slice);
* the cancellation predicate `jspIsInterrupted` (external, polled by
  `jswrap_graphics_drawString`) is modelled as a boolean oracle, one value per
  poll, consumed in order;
* `char` is modelled as an unsigned byte value (0..255), matching the ARM
  targets the firmware runs on.
-/

namespace Espruino

/-- One call to the backend primitive `graphicsSetPixel(gfx, x, y, col)`. -/
structure PixelWrite where
  x : Int
  y : Int
  col : Nat
  deriving DecidableEq, Repr

/-- The slice of the persisted `JsGraphicsData` surface state that the
operations modelled here read or mutate: bit depth, foreground and background
color (`unsigned int`), and the cursor (`short` fields). -/
structure GfxData where
  bpp : Nat
  fgColor : Nat
  bgColor : Nat
  cursorX : Int
  cursorY : Int
  deriving DecidableEq, Repr

/-- The transform-flag bits of `JsGraphicsFlags`.  `JSGRAPHICSFLAGS_SWAP_XY`,
`JSGRAPHICSFLAGS_INVERT_X` and `JSGRAPHICSFLAGS_INVERT_Y` are distinct single
bits of the flag word (declared in graphics.h, outside this source slice), so
they are modelled as three independent booleans; `other` stands for all the
remaining bits of the flag word (zigzag, vertical-byte, ...), which the
rotation code never touches. -/
structure GfxFlags where
  swapXY : Bool
  invertX : Bool
  invertY : Bool
  other : Nat
  deriving DecidableEq, Repr

/-- C `(short)` cast: wrap an integer to 16-bit two's complement. -/
def toShort (v : Int) : Int := (v + 2 ^ 15) % 2 ^ 16 - 2 ^ 15

/-- C `(int)` cast of a real value: truncation toward zero (lines 302-304
apply it to `jsvGetFloat(r)*256`). -/
def cIntTrunc (q : ℚ) : Int := if q < 0 then -Int.floor (-q) else Int.floor q

/-- Lines 305-310: clamp a scaled channel to [0,255]; the `>255` comparisons
run before the `<0` ones, per channel the composition is this. -/
def clamp255 (v : Int) : Int := if 255 < v then 255 else if v < 0 then 0 else v

/-- Lines 301-318: the color quantizer for the three-float form of
`jswrap_graphics_setColorX`.  Channels are scaled by 256, truncated to int,
clamped to [0,255], then packed according to the surface bit depth. -/
def quantizeFloatColor (bpp : Nat) (r g b : ℚ) : Nat :=
  let ri := (clamp255 (cIntTrunc (r * 256))).toNat
  let gi := (clamp255 (cIntTrunc (g * 256))).toNat
  let bi := (clamp255 (cIntTrunc (b * 256))).toNat
  if bpp = 16 then (bi >>> 3) ||| ((gi >>> 2) <<< 5) ||| ((ri >>> 3) <<< 11)
  else if bpp = 32 then 0xFF000000 ||| (bi ||| (gi <<< 8) ||| (ri <<< 16))
  else if bpp = 24 then bi ||| (gi <<< 8) ||| (ri <<< 16)
  else if 384 ≤ ri + gi + bi then 0xFFFFFFFF else 0

/-- The argument of `setColor`/`setBgColor`: either a float triple (g and b
defined) or a single packed integer (g and b undefined). -/
inductive ColorArg where
  | rgb (r g b : ℚ)
  | int (v : Int)

/-- Lines 298-328, `jswrap_graphics_setColorX`: quantize the argument and store
it in the foreground or background color; `graphicsSetVar` (line 327) persists
the mutated snapshot, so the returned state is the persisted state. -/
def jswrap_graphics_setColorX (gfx : GfxData) (c : ColorArg) (isForeground : Bool) : GfxData :=
  let color : Nat :=
    match c with
    | .rgb r g b => quantizeFloatColor gfx.bpp r g b
    | .int v => (v % (2 : Int) ^ 32).toNat
  if isForeground then { gfx with fgColor := color } else { gfx with bgColor := color }

/-- Line 342, `jswrap_graphics_getColorX`: read a stored color back masked to
the surface bit depth. -/
def jswrap_graphics_getColorX (gfx : GfxData) (isForeground : Bool) : Nat :=
  (if isForeground then gfx.fgColor else gfx.bgColor) &&& ((1 <<< gfx.bpp) - 1)

/-- Lines 273-281, `jswrap_graphics_setPixel`.  Returns (persisted state, pixel
writes).  The function draws the pixel, then assigns `cursorX`/`cursorY` on the
local snapshot `gfx` — but it never calls `graphicsSetVar`, so the snapshot is
discarded and the persisted state is returned unchanged.  The dead assignment
is kept here (as `_gfx2`) to mirror lines 279-280. -/
def jswrap_graphics_setPixel (parent : GfxData) (x y : Int) (color : Option Nat) :
    GfxData × List PixelWrite :=
  let gfx := parent
  let col : Nat :=
    match color with
    | none => gfx.fgColor
    | some c => c
  let writes := [PixelWrite.mk (toShort x) (toShort y) col]
  let _gfx2 := { gfx with cursorX := toShort x, cursorY := toShort y }
  (parent, writes)

/-- Lines 565-570, `jswrap_graphics_moveTo`: set the cursor and persist it via
`graphicsSetVar`. -/
def jswrap_graphics_moveTo (gfx : GfxData) (x y : Int) : GfxData :=
  { gfx with cursorX := toShort x, cursorY := toShort y }

/-- Lines 551-557, `jswrap_graphics_lineTo`: draw a line (backend call
`graphicsDrawLine`, outside this slice), set the cursor and persist it via
`graphicsSetVar`.  Only the persisted state is modelled. -/
def jswrap_graphics_lineTo (gfx : GfxData) (x y : Int) : GfxData :=
  { gfx with cursorX := toShort x, cursorY := toShort y }

/-- Lines 602-630, `jswrap_graphics_setRotation`: clear the three transform
flags, set them from the rotation switch, then apply the reflect toggle. -/
def jswrap_graphics_setRotation (f : GfxFlags) (rotation : Int) (reflect : Bool) : GfxFlags :=
  let f1 : GfxFlags := { f with swapXY := false, invertX := false, invertY := false }
  let f2 : GfxFlags :=
    if rotation = 1 then { f1 with swapXY := true, invertX := true }
    else if rotation = 2 then { f1 with invertX := true, invertY := true }
    else if rotation = 3 then { f1 with swapXY := true, invertY := true }
    else f1
  if reflect then
    if f2.swapXY then { f2 with invertY := !f2.invertY }
    else { f2 with invertX := !f2.invertX }
  else f2

/-- The width argument of a custom font: `jsvIsString(customWidth)` selects the
per-glyph byte sequence, otherwise `jsvGetInteger` gives a scalar width. -/
inductive FontWidthSource where
  | scalar (w : Int)
  | perGlyph (ws : List Nat)

/-- Lines 443-450: the iterator walk over the per-glyph width string.  Entries
with index below `ch - firstChar` are accumulated (as `(unsigned char)` bytes)
into the bit offset; the entry the walk stops on is the glyph width.  Walking
past the end of the string yields width 0 (`jsvStringIteratorGetChar` returns 0
at the end).  The second argument counts down from `ch - firstChar`. -/
def fontWidthScan : List Nat → Nat → Nat × Nat
  | [], _ => (0, 0)
  | w :: _, 0 => (0, w % 256)
  | w :: rest, k + 1 =>
    let r := fontWidthScan rest k
    (w % 256 + r.1, r.2)

/-- Lines 440-455: resolve (width, bmpOffset) for one character of a custom
font.  For a per-glyph string the scan runs only when `ch >= firstChar`; for a
scalar width both are computed unconditionally (`bmpOffset` may be negative,
it is only used under the `ch >= firstChar` guard). -/
def customCharWidthOffset (ws : FontWidthSource) (firstChar ch : Nat) : Int × Int :=
  match ws with
  | .perGlyph l =>
    if firstChar ≤ ch then
      let r := fontWidthScan l (ch - firstChar)
      ((r.2 : Int), (r.1 : Int))
    else (0, 0)
  | .scalar w => (w, w * ((ch : Int) - (firstChar : Int)))

/-- Line 465: MSB-first bit test `(jsvStringIteratorGetChar(&cit)<<bmpOffset)&128`
at overall bit index `i` of the font bitmap (byte `i/8`, bit offset `i%8`).
A byte read past the end of the bitmap is 0. -/
def fontBit (bitmap : List Nat) (i : Nat) : Bool :=
  ((((bitmap.getD (i / 8) 0) % 256) <<< (i % 8)) &&& 128) != 0

/-- Lines 462-473: the column-major render loop of one custom-font glyph.
`off` is the pixel-bit offset of the glyph in the bitmap; bit `off + cx*height + cy`
set draws a foreground pixel at `(cx+x, cy+y)` (with the `(short)` casts of
line 466). -/
def glyphWrites (bitmap : List Nat) (height off : Nat) (width : Int) (x y : Int)
    (fg : Nat) : List PixelWrite :=
  (List.range width.toNat).flatMap fun cx =>
    (List.range height).filterMap fun cy =>
      if fontBit bitmap (off + cx * height + cy) then
        some (PixelWrite.mk (toShort ((cx : Int) + x)) (toShort ((cy : Int) + y)) fg)
      else none

/-- Lines 438-476: one iteration of the `drawString` loop for a custom font:
resolve width and offset, multiply the offset by the font height (line 457),
render when `ch >= firstChar`, and advance x by the width (line 476 — note the
advance is unconditional). -/
def drawCustomChar (bitmap : List Nat) (ws : FontWidthSource) (height firstChar ch : Nat)
    (x y : Int) (fg : Nat) : List PixelWrite × Int :=
  let wo := customCharWidthOffset ws firstChar ch
  let writes :=
    if firstChar ≤ ch then
      glyphWrites bitmap height (wo.2 * (height : Int)).toNat wo.1 x y fg
    else []
  (writes, wo.1)

/-- Lines 428-481, `jswrap_graphics_drawString` for a custom font: draw each
character, poll `jspIsInterrupted()` once after each character (line 478) and
stop if it fires.  The oracle `intr` supplies one boolean per poll, in order. -/
def drawStringCustom (bitmap : List Nat) (ws : FontWidthSource) (height firstChar fg : Nat) :
    List Nat → (Nat → Bool) → Int → Int → List PixelWrite
  | [], _, _, _ => []
  | ch :: rest, intr, x, y =>
    let d := drawCustomChar bitmap ws height firstChar ch x y fg
    d.1 ++ (if intr 0 then []
            else drawStringCustom bitmap ws height firstChar fg rest
              (fun n => intr (n + 1)) (x + d.2) y)

/-- Instrumentation of the same loop: the number of `jspIsInterrupted()` calls
made by `jswrap_graphics_drawString` (one per iteration, line 478). -/
def drawStringPollCount : List Nat → (Nat → Bool) → Nat
  | [], _ => 0
  | _ :: rest, intr =>
    1 + (if intr 0 then 0 else drawStringPollCount rest (fun n => intr (n + 1)))

/-- Lines 516-522: the contribution of one character to `stringWidth` with a
custom font.  A per-glyph string contributes its byte at index `ch - firstChar`
(0 past the end — `jsvGetCharInString` returns 0 there) only when
`ch >= firstChar`; a scalar width is added unconditionally (line 521). -/
def stringWidthCustomChar (ws : FontWidthSource) (firstChar ch : Nat) : Int :=
  match ws with
  | .perGlyph l => if firstChar ≤ ch then (((l.getD (ch - firstChar) 0) % 256 : Nat) : Int) else 0
  | .scalar w => w

/-- Lines 494-530, `jswrap_graphics_stringWidth` for a custom font: sum the
per-character widths. -/
def jswrap_graphics_stringWidth (ws : FontWidthSource) (firstChar : Nat)
    (chars : List Nat) : Int :=
  (chars.map fun ch => stringWidthCustomChar ws firstChar ch).sum

/-- Lines 583-589: the `fillPoly` vertex collection loop —
`while (item && idx<maxVerts)` with `maxVerts = 128` scalar values, each stored
through a `(short)` cast. -/
def fillPolyCollect : List Int → Nat → List Int
  | [], _ => []
  | v :: rest, idx => if idx < 128 then toShort v :: fillPolyCollect rest (idx + 1) else []

/-- Lines 577-594, `jswrap_graphics_fillPoly`: collect up to 128 scalar values,
warn iff the cap was reached (line 590), and call `graphicsFillPoly` with
`idx/2` vertices.  Returns (collected scalar values, warned, vertex count
passed to `graphicsFillPoly`). -/
def jswrap_graphics_fillPoly (poly : List Int) : List Int × Bool × Nat :=
  let verts := fillPolyCollect poly 0
  (verts, decide (verts.length = 128), verts.length / 2)

/-- Line 648 with a 64-bit `long` (as on the Linux/SDL builds):
`(unsigned int)((1L<<imageBpp)-1L)`.  The shift is exact, the subtraction
happens in 64 bits, and the cast reduces mod 2^32. -/
def imageBitMask (bpp : Nat) : Nat := ((1 <<< bpp) - 1) % 2 ^ 32

/-- Line 648 with a 32-bit `long` (as on 32-bit embedded targets), under the
common hardware semantics that a shift count is reduced mod the word width:
the shift and the subtraction (two's complement) happen mod 2^32.  For
`bpp = 32` the shift of 1 by 32 overflows the 32-bit domain and the mask
degenerates. -/
def imageBitMask32 (bpp : Nat) : Nat :=
  (((1 <<< (bpp % 32)) % 2 ^ 32) + (2 ^ 32 - 1)) % 2 ^ 32

/-- The `drawImage` argument object (lines 645-653): width, height, bpp (as
read by `jsvGetInteger`), the optional transparent color key (present iff the
`transparent` field exists), and the backing byte buffer. -/
structure ImageDescriptor where
  width : Int
  height : Int
  bpp : Int
  transparent : Option Nat
  buffer : List Nat

/-- Lines 670-674: the inner `while (bits < imageBpp)` of the image blitter,
shifting whole bytes into the 32-bit accumulator.  Each pass adds 8 bits, so
the loop body runs exactly `ceil((bpp - bits)/8)` times; reading past the end
of the buffer yields 0 bytes (`jsvStringIteratorGetChar` at the end). -/
def fillBitsAux : Nat → List Nat → Nat → Nat → List Nat × Nat × Nat
  | 0, bytes, bits, colData => (bytes, bits, colData)
  | n + 1, bytes, bits, colData =>
    fillBitsAux n bytes.tail (bits + 8) (((colData <<< 8) ||| (bytes.headD 0) % 256) % 2 ^ 32)

/-- Lines 670-674 wrapped with the loop bound. -/
def fillBits (bpp : Nat) (bytes : List Nat) (bits colData : Nat) : List Nat × Nat × Nat :=
  fillBitsAux ((bpp - bits + 7) / 8) bytes bits colData

/-- Lines 668-692: the outer blit loop
`while ((bits>=imageBpp || hasChar) && y<imageHeight)`.  Each iteration fills
the accumulator, extracts the top `bpp` bits under `mask`, applies the
transparency test and the 1-bit foreground/background substitution, writes the
pixel (with the `(short)` casts of line 682), and advances x/y.  Modelled with
a fuel counter: every iteration consumes `bpp >= 1` bits of the at most
`8*len + 7` bits the byte stream plus zero padding can supply, and at most
`len` iterations consume a byte, so `9*len + 40` fuel always exceeds the true
iteration count and the fuel-exhausted branch is never the one that stops the
loop. -/
def blitLoop (bpp mask : Nat) (transp : Option Nat) (fg bg : Nat) (w h : Nat)
    (xPos yPos : Int) : Nat → List Nat → Nat → Nat → Nat → Nat → List PixelWrite
  | 0, _, _, _, _, _ => []
  | fuel + 1, bytes, bits, colData, x, y =>
    if (bpp ≤ bits ∨ bytes ≠ []) ∧ y < h then
      let s := fillBits bpp bytes bits colData
      let col := (s.2.2 >>> (s.2.1 - bpp)) &&& mask
      let keep : Bool :=
        match transp with
        | none => true
        | some t => decide (t ≠ col)
      let col2 := if bpp = 1 then (if col ≠ 0 then fg else bg) else col
      let wr := if keep then
          [PixelWrite.mk (toShort ((x : Int) + xPos)) (toShort ((y : Int) + yPos)) col2]
        else []
      wr ++ (if w ≤ x + 1 then
          blitLoop bpp mask transp fg bg w h xPos yPos fuel s.1 (s.2.1 - bpp) s.2.2 0 (y + 1)
        else
          blitLoop bpp mask transp fg bg w h xPos yPos fuel s.1 (s.2.1 - bpp) s.2.2 (x + 1) y)
    else []

/-- Lines 639-695, `jswrap_graphics_drawImage`: validate the descriptor
(line 654), compute the sample mask (line 648, 64-bit `long` model) and run the
blit loop from `x = y = bits = colData = 0`. -/
def jswrap_graphics_drawImage (gfx : GfxData) (img : ImageDescriptor)
    (xPos yPos : Int) : List PixelWrite :=
  if 0 < img.width ∧ 0 < img.height ∧ 0 < img.bpp ∧ img.bpp ≤ 32 then
    blitLoop img.bpp.toNat (imageBitMask img.bpp.toNat) img.transparent
      gfx.fgColor gfx.bgColor img.width.toNat img.height.toNat xPos yPos
      (9 * img.buffer.length + 40) img.buffer 0 0 0 0
  else []

end Espruino

namespace Espruino

/-- Helper: the C `(int)` truncation is the identity on integral values. -/
theorem cIntTrunc_intCast (n : ℤ) : cIntTrunc (n : ℚ) = n := by
  unfold cIntTrunc
  split_ifs with h
  · rw [← Int.cast_neg, Int.floor_intCast]; ring
  · rw [Int.floor_intCast]

/-- Helper: quantizing the float triple (0,0,0) at each depth. -/
theorem quantize_zero (d : Nat) :
    quantizeFloatColor d 0 0 0 =
      if d = 16 then 0 else if d = 32 then 0xFF000000 else if d = 24 then 0 else 0 := by
  have h0 : cIntTrunc (0 : ℚ) = 0 := by simpa using cIntTrunc_intCast 0
  simp only [quantizeFloatColor, zero_mul, h0, clamp255]
  norm_num

/-- Helper: quantizing the float triple (1,1,1) at each depth (each channel
scales to 256 and clamps down to 255). -/
theorem quantize_one (d : Nat) :
    quantizeFloatColor d 1 1 1 =
      if d = 16 then 0xFFFF else if d = 32 then 0xFFFFFFFF else if d = 24 then 0xFFFFFF
      else 0xFFFFFFFF := by
  have h1 : cIntTrunc (256 : ℚ) = 256 := by
    have := cIntTrunc_intCast 256
    norm_num at this
    exact this
  have ht : (255 : Int).toNat = 255 := rfl
  simp only [quantizeFloatColor, one_mul, h1, clamp255]
  norm_num [ht]
  split_ifs <;> decide

/-- Helper: `setRotation` never changes the non-transform flag bits. -/
theorem setRotation_other (f : GfxFlags) (r : Int) (b : Bool) :
    (jswrap_graphics_setRotation f r b).other = f.other := by
  simp only [jswrap_graphics_setRotation]
  split_ifs <;> rfl

/-- Helper: the result of `setRotation` depends on the incoming flags only
through the non-transform bits (the three transform flags are cleared first). -/
theorem setRotation_congr (f g : GfxFlags) (r : Int) (b : Bool) (h : f.other = g.other) :
    jswrap_graphics_setRotation f r b = jswrap_graphics_setRotation g r b := by
  simp only [jswrap_graphics_setRotation]
  rw [h]

/-- Helper: the width-string walk accumulates the byte values of the entries
before index k and stops on the entry at index k (0 past the end). -/
theorem fontWidthScan_eq (l : List Nat) : ∀ k,
    fontWidthScan l k = (((l.take k).map (fun v => v % 256)).sum, (l.getD k 0) % 256) := by
  induction l with
  | nil => intro k; simp [fontWidthScan]
  | cons w rest ih =>
    intro k
    cases k with
    | zero => simp [fontWidthScan]
    | succ k => simp [fontWidthScan, ih k, List.take_succ_cons]

/-- Helper: the `fillPoly` collection loop keeps exactly the first `128 - idx`
scalar values. -/
theorem fillPolyCollect_eq (poly : List Int) : ∀ idx,
    fillPolyCollect poly idx = (poly.take (128 - idx)).map toShort := by
  induction poly with
  | nil => intro idx; simp [fillPolyCollect]
  | cons v rest ih =>
    intro idx
    by_cases h : idx < 128
    · have h2 : 128 - idx = (128 - (idx + 1)) + 1 := by omega
      simp [fillPolyCollect, h, h2, ih]
    · have h2 : 128 - idx = 0 := by omega
      simp [fillPolyCollect, h, h2]

/-- C1 (counterexample): with a scalar width source and a character below
`firstChar` (here width 5, firstChar 32, ch 31), `drawString` advances x by
the scalar width 5, not 0, and `stringWidth` adds 5, not 0 — refuting the
claim that every width source gives width 0 below `firstChar`. -/
theorem c1_scalar_width_advances :
    (drawCustomChar [] (.scalar 5) 7 32 31 0 0 1).2 = 5 ∧ (5 : Int) ≠ 0 ∧
    jswrap_graphics_stringWidth (.scalar 5) 32 [31] = 5 := by decide

/-- C1 (amended): for a character with code below `firstChar` no pixels are
drawn under either width source; with a per-glyph width source the x advance
and the `stringWidth` contribution are both 0, while with a scalar width
source both equal the scalar width. -/
theorem c1_below_firstChar_amended (bitmap l : List Nat) (w : Int)
    (height firstChar ch : Nat) (x y : Int) (fg : Nat) (hch : ch < firstChar) :
    drawCustomChar bitmap (.perGlyph l) height firstChar ch x y fg = ([], 0) ∧
    jswrap_graphics_stringWidth (.perGlyph l) firstChar [ch] = 0 ∧
    drawCustomChar bitmap (.scalar w) height firstChar ch x y fg = ([], w) ∧
    jswrap_graphics_stringWidth (.scalar w) firstChar [ch] = w := by
  have hn : ¬ firstChar ≤ ch := by omega
  refine ⟨?_, ?_, ?_, ?_⟩ <;>
    simp [drawCustomChar, customCharWidthOffset, jswrap_graphics_stringWidth,
      stringWidthCustomChar, hn]

/-- C1 (witness): the amended statement at bitmap [], widths [] / 5,
height 7, firstChar 32, ch 31. -/
theorem c1_below_firstChar_witness :
    drawCustomChar [] (.perGlyph []) 7 32 31 0 0 1 = ([], 0) ∧
    jswrap_graphics_stringWidth (.perGlyph []) 32 [31] = 0 ∧
    drawCustomChar [] (.scalar 5) 7 32 31 0 0 1 = ([], 5) ∧
    jswrap_graphics_stringWidth (.scalar 5) 32 [31] = 5 :=
  c1_below_firstChar_amended [] [] 5 7 32 31 0 0 1 (by decide)

/-- C2 (counterexample): blitting the 2-by-2 1 bpp image with byte stream
[0b10000000, 0b01000000] and no transparent key writes foreground only at
(0,0); the pixel at (1,1) gets the background color, because the sample stream
is not padded between rows — the four samples are the top four bits of the
first byte.  This refutes the claimed foreground write at (1,1). -/
theorem c2_blit_counterexample :
    jswrap_graphics_drawImage ⟨1, 7, 3, 0, 0⟩ ⟨2, 2, 1, none, [128, 64]⟩ 0 0 =
      [⟨0, 0, 7⟩, ⟨1, 0, 3⟩, ⟨0, 1, 3⟩, ⟨1, 1, 3⟩] ∧
    PixelWrite.mk 1 1 7 ∉
      jswrap_graphics_drawImage ⟨1, 7, 3, 0, 0⟩ ⟨2, 2, 1, none, [128, 64]⟩ 0 0 := by decide

/-- C2 (amended): for every foreground and background color, blitting the
2-by-2 1 bpp image with bytes [0b10000000, 0b01000000] and no transparent key
writes exactly four pixels — foreground at (0,0) and background at (1,0),
(0,1) and (1,1); the second byte is never consumed because the loop stops at
the declared height. -/
theorem c2_blit_amended (bpp fg bg : Nat) (cx cy : Int) :
    jswrap_graphics_drawImage ⟨bpp, fg, bg, cx, cy⟩ ⟨2, 2, 1, none, [128, 64]⟩ 0 0 =
      [⟨0, 0, fg⟩, ⟨1, 0, bg⟩, ⟨0, 1, bg⟩, ⟨1, 1, bg⟩] := by rfl

/-- C3 (confirmed): for every incoming flag state and reflect flag,
`setRotation` produces exactly the table flags — r=0 none, r=1 swap-xy and
invert-x, r=2 invert-x and invert-y, r=3 swap-xy and invert-y — with the
reflect toggle applied to invert-y when swap-xy is set and to invert-x
otherwise, and leaves every other flag bit unchanged. -/
theorem c3_setRotation_flag_table (f : GfxFlags) (reflect : Bool) :
    jswrap_graphics_setRotation f 0 reflect = ⟨false, reflect, false, f.other⟩ ∧
    jswrap_graphics_setRotation f 1 reflect = ⟨true, true, reflect, f.other⟩ ∧
    jswrap_graphics_setRotation f 2 reflect = ⟨false, !reflect, true, f.other⟩ ∧
    jswrap_graphics_setRotation f 3 reflect = ⟨true, false, !reflect, f.other⟩ := by
  cases reflect <;> exact ⟨rfl, rfl, rfl, rfl⟩

/-- C4 (counterexample): calling `setRotation(0, true)` twice does not return
to the non-reflected flags of `setRotation(0, false)` — the second reflected
call rebuilds the same reflected state, so invert-x stays toggled. -/
theorem c4_reflect_counterexample :
    jswrap_graphics_setRotation (jswrap_graphics_setRotation ⟨false, false, false, 0⟩ 0 true) 0 true ≠
      jswrap_graphics_setRotation ⟨false, false, false, 0⟩ 0 false := by decide

/-- C4 (amended): `setRotation` with fixed arguments is idempotent for every
rotation and reflect flag — each call first clears the three transform flags,
so repeating a call (reflected or not) reproduces the state of a single call;
a repeated reflected call does not cancel the reflection. -/
theorem c4_setRotation_idempotent (f : GfxFlags) (rotation : Int) (reflect : Bool) :
    jswrap_graphics_setRotation (jswrap_graphics_setRotation f rotation reflect) rotation reflect
      = jswrap_graphics_setRotation f rotation reflect :=
  setRotation_congr _ _ _ _ (setRotation_other f rotation reflect)

/-- C5 (counterexample): quantizing the float triple (0,0,0) at depth 32 does
not give the all-zero color — the 32-bit packing tags the word with the opaque
alpha byte 0xFF000000. -/
theorem c5_depth32_zero_counterexample :
    quantizeFloatColor 32 0 0 0 = 0xFF000000 ∧ (0xFF000000 : Nat) ≠ 0 := by
  rw [quantize_zero]
  norm_num

/-- C5 (amended): the float quantizer scales by 256, clamps to [0,255] and
packs per depth; (0,0,0) quantizes to the all-zero color at depths 1, 2, 4, 8,
16 and 24 but to 0xFF000000 (alpha tag over zero RGB) at depth 32; (1,1,1)
quantizes to the maximum representable color at every depth — 0xFFFF at 16,
0xFFFFFF at 24, 0xFFFFFFFF at 32, and the all-bits-set word at the threshold
depths, which reads back through the depth mask as the maximum value. -/
theorem c5_quantize_extremes_amended :
    (quantizeFloatColor 1 0 0 0 = 0 ∧ quantizeFloatColor 2 0 0 0 = 0 ∧
     quantizeFloatColor 4 0 0 0 = 0 ∧ quantizeFloatColor 8 0 0 0 = 0 ∧
     quantizeFloatColor 16 0 0 0 = 0 ∧ quantizeFloatColor 24 0 0 0 = 0 ∧
     quantizeFloatColor 32 0 0 0 = 0xFF000000) ∧
    (quantizeFloatColor 16 1 1 1 = 0xFFFF ∧ quantizeFloatColor 24 1 1 1 = 0xFFFFFF ∧
     quantizeFloatColor 32 1 1 1 = 0xFFFFFFFF ∧
     quantizeFloatColor 1 1 1 1 = 0xFFFFFFFF ∧ quantizeFloatColor 2 1 1 1 = 0xFFFFFFFF ∧
     quantizeFloatColor 4 1 1 1 = 0xFFFFFFFF ∧ quantizeFloatColor 8 1 1 1 = 0xFFFFFFFF) ∧
    (jswrap_graphics_getColorX ⟨1, quantizeFloatColor 1 1 1 1, 0, 0, 0⟩ true = 2 ^ 1 - 1 ∧
     jswrap_graphics_getColorX ⟨2, quantizeFloatColor 2 1 1 1, 0, 0, 0⟩ true = 2 ^ 2 - 1 ∧
     jswrap_graphics_getColorX ⟨4, quantizeFloatColor 4 1 1 1, 0, 0, 0⟩ true = 2 ^ 4 - 1 ∧
     jswrap_graphics_getColorX ⟨8, quantizeFloatColor 8 1 1 1, 0, 0, 0⟩ true = 2 ^ 8 - 1 ∧
     jswrap_graphics_getColorX ⟨16, quantizeFloatColor 16 1 1 1, 0, 0, 0⟩ true = 2 ^ 16 - 1 ∧
     jswrap_graphics_getColorX ⟨24, quantizeFloatColor 24 1 1 1, 0, 0, 0⟩ true = 2 ^ 24 - 1 ∧
     jswrap_graphics_getColorX ⟨32, quantizeFloatColor 32 1 1 1, 0, 0, 0⟩ true = 2 ^ 32 - 1) := by
  refine ⟨⟨?_, ?_, ?_, ?_, ?_, ?_, ?_⟩, ⟨?_, ?_, ?_, ?_, ?_, ?_, ?_⟩,
    ⟨?_, ?_, ?_, ?_, ?_, ?_, ?_⟩⟩ <;>
    simp [quantize_zero, quantize_one, jswrap_graphics_getColorX] <;> decide

/-- C6 (confirmed): for a glyph with `ch >= firstChar` the starting bit offset
into the packed bitstream is height times the width prefix — with a scalar
width source it is `w * (ch - firstChar) * height` (and the rendered pixels of
`drawString` are read from exactly that offset), and with a per-glyph width
sequence it is the sum of the byte widths of all preceding glyphs times the
height, with the width of the glyph itself being the sequence entry at index
`ch - firstChar`. -/
theorem c6_glyph_bit_offset (bitmap : List Nat) (w : Int) (l : List Nat)
    (height firstChar ch : Nat) (x y : Int) (fg : Nat)
    (hch : firstChar ≤ ch) (hidx : ch - firstChar < l.length) :
    (customCharWidthOffset (.scalar w) firstChar ch).2 * (height : Int)
        = w * ((ch - firstChar : Nat) : Int) * (height : Int) ∧
    (drawCustomChar bitmap (.scalar w) height firstChar ch x y fg).1
        = glyphWrites bitmap height (w * ((ch - firstChar : Nat) : Int) * (height : Int)).toNat
            w x y fg ∧
    (customCharWidthOffset (.perGlyph l) firstChar ch).2 * (height : Int)
        = ((((l.take (ch - firstChar)).map (fun v => v % 256)).sum : Nat) : Int) * (height : Int) ∧
    (customCharWidthOffset (.perGlyph l) firstChar ch).1
        = ((l.get ⟨ch - firstChar, hidx⟩ % 256 : Nat) : Int) := by
  have hcast : ((ch - firstChar : Nat) : Int) = (ch : Int) - (firstChar : Int) := by
    omega
  refine ⟨?_, ?_, ?_, ?_⟩
  · simp [customCharWidthOffset, hcast, mul_assoc]
  · simp [drawCustomChar, customCharWidthOffset, hch, hcast, mul_assoc]
  · simp [customCharWidthOffset, hch, fontWidthScan_eq]
  · simp [customCharWidthOffset, hch, fontWidthScan_eq, List.getD_eq_getElem?_getD,
      List.getElem?_eq_getElem hidx]

/-- C6 (witness): the offset law at width 5, height 7, firstChar 32, ch 65,
together with the round-trip instance `5 * 33 * 7 = 1155` bits. -/
theorem c6_glyph_bit_offset_witness :
    ((customCharWidthOffset (.scalar 5) 32 65).2 * ((7 : Nat) : Int)
        = 5 * ((65 - 32 : Nat) : Int) * ((7 : Nat) : Int) ∧
    (drawCustomChar [] (.scalar 5) 7 32 65 0 0 1).1
        = glyphWrites [] 7 (5 * ((65 - 32 : Nat) : Int) * ((7 : Nat) : Int)).toNat 5 0 0 1 ∧
    (customCharWidthOffset (.perGlyph (List.replicate 40 3)) 32 65).2 * ((7 : Nat) : Int)
        = (((((List.replicate 40 3).take (65 - 32)).map (fun v => v % 256)).sum : Nat) : Int)
            * ((7 : Nat) : Int) ∧
    (customCharWidthOffset (.perGlyph (List.replicate 40 3)) 32 65).1
        = (((List.replicate 40 3).get ⟨65 - 32, by decide⟩ % 256 : Nat) : Int)) ∧
    (5 : Int) * ((65 - 32 : Nat) : Int) * ((7 : Nat) : Int) = 1155 :=
  ⟨c6_glyph_bit_offset [] 5 (List.replicate 40 3) 7 32 65 0 0 1 (by decide) (by decide),
   by decide⟩

/-- C7 (counterexample): with a 32-bit `long` (shift count reduced mod the
word width, as x86 hardware does) the mask computed by line 648 at bpp = 32 is
0, not 2^32 - 1 — the code does rely on a left shift of 1 by 32. -/
theorem c7_mask32_counterexample : imageBitMask32 32 = 0 ∧ (0 : Nat) ≠ 2 ^ 32 - 1 := by
  constructor
  · rfl
  · decide

/-- C7 (amended): the sample mask equals 2^bpp - 1 for every bpp in [1,32]
when `long` is 64 bits wide, and for every bpp in [1,31] also when `long` is
32 bits wide; at bpp = 32 the computation `(1L<<imageBpp)-1L` relies on
shifting 1 left by 32, which overflows a 32-bit `long` domain. -/
theorem c7_mask_amended (bpp : Nat) (h1 : 1 ≤ bpp) (h2 : bpp ≤ 32) :
    imageBitMask bpp = 2 ^ bpp - 1 ∧ (bpp ≤ 31 → imageBitMask32 bpp = 2 ^ bpp - 1) := by
  have hle : 2 ^ bpp ≤ 2 ^ 32 := Nat.pow_le_pow_right (by norm_num) h2
  constructor
  · rw [imageBitMask, Nat.one_shiftLeft, Nat.mod_eq_of_lt (by omega)]
  · intro h3
    have hlt : 2 ^ bpp < 2 ^ 32 := Nat.pow_lt_pow_right (by norm_num) (by omega)
    have h032 : bpp % 32 = bpp := Nat.mod_eq_of_lt (by omega)
    have h1p : 1 ≤ 2 ^ bpp := Nat.one_le_two_pow
    rw [imageBitMask32, h032, Nat.one_shiftLeft, Nat.mod_eq_of_lt hlt]
    have hsplit : 2 ^ bpp + (2 ^ 32 - 1) = 2 ^ 32 + (2 ^ bpp - 1) := by omega
    rw [hsplit, Nat.add_mod_left, Nat.mod_eq_of_lt (by omega)]

/-- C7 (witness): the amended statement at the boundary bpp = 32. -/
theorem c7_mask_amended_witness :
    imageBitMask 32 = 2 ^ 32 - 1 ∧ (32 ≤ 31 → imageBitMask32 32 = 2 ^ 32 - 1) :=
  c7_mask_amended 32 (by decide) (by decide)

/-- C8 (code bug): `jswrap_graphics_setPixel` assigns the cursor on its local
snapshot (lines 279-280) but never calls `graphicsSetVar`, so the persisted
surface state is unchanged — here setPixel(5,7) on a surface with persisted
cursor (0,0) draws the pixel yet leaves the persisted state identical, while
`moveTo`, `lineTo` and `setColor` do persist their mutations. -/
theorem c8_setPixel_drops_cursor_writeback :
    (jswrap_graphics_setPixel ⟨16, 1, 0, 0, 0⟩ 5 7 none).1 = ⟨16, 1, 0, 0, 0⟩ ∧
    (jswrap_graphics_setPixel ⟨16, 1, 0, 0, 0⟩ 5 7 none).2 = [⟨5, 7, 1⟩] ∧
    (jswrap_graphics_moveTo ⟨16, 1, 0, 0, 0⟩ 5 7).cursorX = 5 ∧
    (jswrap_graphics_moveTo ⟨16, 1, 0, 0, 0⟩ 5 7).cursorY = 7 ∧
    (jswrap_graphics_lineTo ⟨16, 1, 0, 0, 0⟩ 5 7).cursorX = 5 ∧
    (jswrap_graphics_setColorX ⟨16, 1, 0, 0, 0⟩ (.int 9) true).fgColor = 9 := by decide

/-- C9 (confirmed): `fillPoly` consumes scalar values pairwise until the input
is exhausted or 128 scalar values (64 vertices) are taken; on any 150-value
input it keeps exactly the first 128 values, reports the truncation warning,
and still calls `graphicsFillPoly` with the truncated set of 64 vertices. -/
theorem c9_fillPoly_truncation (poly : List Int) (hlen : poly.length = 150) :
    (jswrap_graphics_fillPoly poly).1 = (poly.take 128).map toShort ∧
    (jswrap_graphics_fillPoly poly).2.1 = true ∧
    (jswrap_graphics_fillPoly poly).2.2 = 64 := by
  have hc := fillPolyCollect_eq poly 0
  have hl : ((poly.take 128).map toShort).length = 128 := by
    simp [List.length_take, hlen]
  refine ⟨?_, ?_, ?_⟩ <;> simp [jswrap_graphics_fillPoly, hc, hl, hlen]

/-- C9 (witness): the truncation statement on a concrete 150-value input. -/
theorem c9_fillPoly_truncation_witness :
    (jswrap_graphics_fillPoly (List.replicate 150 (0 : Int))).1 =
      ((List.replicate 150 (0 : Int)).take 128).map toShort ∧
    (jswrap_graphics_fillPoly (List.replicate 150 (0 : Int))).2.1 = true ∧
    (jswrap_graphics_fillPoly (List.replicate 150 (0 : Int))).2.2 = 64 :=
  c9_fillPoly_truncation (List.replicate 150 0) (by simp)

/-- C10 (confirmed): `drawString` polls the cancellation predicate once per
character; if the polls before index k read false and the poll at k reads
true, the writes equal those of drawing just the first k+1 characters with no
cancellation — the glyphs up to and including index k are drawn intact and no
glyph after index k is drawn — and exactly `min (length) (k+1)` polls are
made. -/
theorem c10_drawString_cancellation (bitmap : List Nat) (ws : FontWidthSource)
    (height firstChar fg : Nat) (chars : List Nat) (intr : Nat → Bool) (x y : Int) (k : Nat)
    (hbefore : ∀ j, j < k → intr j = false) (hk : intr k = true) :
    drawStringCustom bitmap ws height firstChar fg chars intr x y =
      drawStringCustom bitmap ws height firstChar fg (chars.take (k + 1))
        (fun _ => false) x y ∧
    drawStringPollCount chars intr = min chars.length (k + 1) := by
  induction chars generalizing intr x k with
  | nil => simp [drawStringCustom, drawStringPollCount]
  | cons ch rest ih =>
    cases k with
    | zero =>
      simp [drawStringCustom, drawStringPollCount, hk, List.take_succ_cons]
    | succ k =>
      have h0 : intr 0 = false := hbefore 0 (by omega)
      have ihm := ih (fun n => intr (n + 1))
        (x + (drawCustomChar bitmap ws height firstChar ch x y fg).2) k
        (fun j hj => hbefore (j + 1) (by omega)) hk
      simp [drawStringCustom, drawStringPollCount, h0, List.take_succ_cons, ihm.1, ihm.2]
      omega

/-- C10 (witness): cancellation observed at the first poll of a three-character
string draws only the first glyph. -/
theorem c10_drawString_cancellation_witness :
    drawStringCustom [170] (.scalar 2) 3 0 9 [0, 1, 2] (fun _ => true) 0 0 =
      drawStringCustom [170] (.scalar 2) 3 0 9 ([0, 1, 2].take (0 + 1)) (fun _ => false) 0 0 ∧
    drawStringPollCount [0, 1, 2] (fun _ => true) = min ([0, 1, 2] : List Nat).length (0 + 1) :=
  c10_drawString_cancellation [170] (.scalar 2) 3 0 9 [0, 1, 2] (fun _ => true) 0 0 0
    (fun j hj => absurd hj (Nat.not_lt_zero j)) rfl

end Espruino
